import Mathlib

/-!
Verification of the question feed controller in
`src/client/src/pages/HomePage.tsx` (StackIt).

The component is embedded shallowly: React state (`questions`, `isLoading`,
`error`, `sortBy`) becomes an explicit `FeedState`; each event handler becomes
a pure function from its inputs (current viewer, confirmation result, stored
auth token, outcome of the single `fetch` it performs) to the next state plus
the list of network requests issued and the list of toasts emitted.
JavaScript's stable `Array.prototype.sort` is modelled by `List.mergeSort`,
which is stable; `new Date(s).getTime()` is modelled by storing the parsed
epoch-millisecond value (`createdAt : Int`) directly on the question.
-/

namespace StackIt

/-- The `question.userId` sub-object: `{ _id, username }`. -/
structure Author where
  _id : String
  username : String
deriving DecidableEq

/-- One entry of the `votes` array: `{ userId, vote }`. -/
structure Vote where
  userId : String
  vote : Int
deriving DecidableEq

/-- The `Question` interface of HomePage.tsx. `createdAt` holds the epoch
milliseconds denoted by the ISO string, i.e. `new Date(createdAt).getTime()`;
the sort comparators only ever use this value. -/
structure Question where
  _id : String
  title : String
  description : String
  userId : Author
  tags : List String
  votes : List Vote
  answers : List String
  acceptedAnswerId : Option String
  voteCount : Int
  createdAt : Int
deriving DecidableEq

/-- The `sortBy` state: "newest" | "votes" | "activity". -/
inductive SortKey where
  | newest
  | votes
  | activity
deriving DecidableEq

/-- The component state held in `useState` hooks. -/
structure FeedState where
  questions : List Question
  isLoading : Bool
  error : String
  sortBy : SortKey
deriving DecidableEq

/-- Initial hook values: `useState<Question[]>([])`, `useState(true)`,
`useState("")`, `useState("newest")`. -/
def initialState : FeedState :=
  { questions := [], isLoading := true, error := "", sortBy := SortKey.newest }

/-- The viewer from `useAuth()`; the handlers only read `role`. -/
structure Viewer where
  _id : String
  role : String
deriving DecidableEq

/-- Toast variant: the `variant: "destructive"` option, absent for success. -/
inductive ToastVariant where
  | default
  | destructive
deriving DecidableEq

/-- A `toast({...})` call: title, description, variant. -/
structure Toast where
  title : String
  description : String
  variant : ToastVariant
deriving DecidableEq

/-- One `fetch` call: method, url, and the `Authorization` header if set. -/
structure Request where
  method : String
  url : String
  authorization : Option String
deriving DecidableEq

/-- Result of running a handler: next state, requests issued, toasts emitted. -/
structure RunResult where
  state : FeedState
  requests : List Request
  toasts : List Toast
deriving DecidableEq

/-- Outcome of a moderation `fetch`: the promise resolves with `response.ok`
true, resolves with `response.ok` false, or rejects with an error carrying
`message`. -/
inductive FetchOutcome where
  | success
  | httpFailure
  | transportError (message : String)
deriving DecidableEq

/-- Outcome of the list-load `fetch`: ok response with parsed questions,
non-ok response, or a rejection (transport or JSON parse failure) carrying
`message`. -/
inductive LoadOutcome where
  | success (questions : List Question)
  | httpFailure
  | transportError (message : String)
deriving DecidableEq

/-- JavaScript template interpolation of `localStorage.getItem("token")`:
a missing key is `null` and interpolates as the string "null". -/
def jsTemplateToken : Option String → String
  | some t => t
  | none => "null"

/-- JavaScript `a || b` on strings: the empty string is falsy. -/
def jsOrElse (a b : String) : String :=
  if a = "" then b else a

/-- The comparator passed to `.sort` for each `sortBy` value; "newest" is the
`default` branch of the switch and computes exactly as "activity". -/
def questionCompare (sortBy : SortKey) (a b : Question) : Int :=
  match sortBy with
  | SortKey.votes => b.voteCount - a.voteCount
  | SortKey.activity => b.createdAt - a.createdAt
  | SortKey.newest => b.createdAt - a.createdAt

/-- The view `const sortedQuestions = [...questions].sort(comparator)`: a stable sort
of a copy of the stored collection. `Array.prototype.sort` is stable, so it
is modelled by `List.mergeSort` on the ordering "comparator ≤ 0". -/
def sortedQuestions (questions : List Question) (sortBy : SortKey) : List Question :=
  questions.mergeSort (fun a b => decide (questionCompare sortBy a b ≤ 0))

/-- The update `setQuestions(questions.filter(q => q._id !== questionId))`: the local
reconciliation after a successful admin delete (the spec's
`FeedState.removeQuestion`). -/
def removeQuestion (questions : List Question) (questionId : String) : List Question :=
  questions.filter (fun q => q._id != questionId)

/-- Handler `handleDeleteQuestion`: admin guard, confirm gate, DELETE request, then
either remove the question locally and emit a success toast, or emit a
destructive toast with `error.message || "Failed to delete question"`. -/
def handleDeleteQuestion (backend : String) (user : Option Viewer) (confirmed : Bool)
    (token : Option String) (outcome : FetchOutcome) (st : FeedState)
    (questionId : String) : RunResult :=
  match user with
  | none => ⟨st, [], []⟩
  | some u =>
    if u.role != "admin" then ⟨st, [], []⟩
    else if !confirmed then ⟨st, [], []⟩
    else
      let req : Request :=
        ⟨"DELETE", backend ++ "/api/questions/" ++ questionId ++ "/admin-delete",
          some ("Bearer " ++ jsTemplateToken token)⟩
      match outcome with
      | FetchOutcome.success =>
          ⟨{ st with questions := removeQuestion st.questions questionId }, [req],
            [⟨"Question deleted", "The question and all its answers have been deleted.",
              ToastVariant.default⟩]⟩
      | FetchOutcome.httpFailure =>
          ⟨st, [req],
            [⟨"Error", jsOrElse "Failed to delete question" "Failed to delete question",
              ToastVariant.destructive⟩]⟩
      | FetchOutcome.transportError msg =>
          ⟨st, [req],
            [⟨"Error", jsOrElse msg "Failed to delete question", ToastVariant.destructive⟩]⟩

/-- Handler `handleBanUser`: admin guard, confirm gate, PUT request, then a success
toast (no state change) or a destructive toast with
`error.message || "Failed to ban user"`. -/
def handleBanUser (backend : String) (user : Option Viewer) (confirmed : Bool)
    (token : Option String) (outcome : FetchOutcome) (st : FeedState)
    (userId username : String) : RunResult :=
  match user with
  | none => ⟨st, [], []⟩
  | some u =>
    if u.role != "admin" then ⟨st, [], []⟩
    else if !confirmed then ⟨st, [], []⟩
    else
      let req : Request :=
        ⟨"PUT", backend ++ "/api/admin/ban-user/" ++ userId ++ "?banned=true",
          some ("Bearer " ++ jsTemplateToken token)⟩
      match outcome with
      | FetchOutcome.success =>
          ⟨st, [req],
            [⟨"User banned", "User \"" ++ username ++ "\" has been banned successfully.",
              ToastVariant.default⟩]⟩
      | FetchOutcome.httpFailure =>
          ⟨st, [req],
            [⟨"Error", jsOrElse "Failed to ban user" "Failed to ban user",
              ToastVariant.destructive⟩]⟩
      | FetchOutcome.transportError msg =>
          ⟨st, [req],
            [⟨"Error", jsOrElse msg "Failed to ban user", ToastVariant.destructive⟩]⟩

/-- The message of the error caught by `handleDeleteQuestion`'s catch block:
the locally thrown "Failed to delete question" on a non-ok response, or the
rejection's own message. -/
def deleteErrorMessage : FetchOutcome → String
  | FetchOutcome.success => ""
  | FetchOutcome.httpFailure => "Failed to delete question"
  | FetchOutcome.transportError msg => msg

/-- The message of the error caught by `handleBanUser`'s catch block. -/
def banErrorMessage : FetchOutcome → String
  | FetchOutcome.success => ""
  | FetchOutcome.httpFailure => "Failed to ban user"
  | FetchOutcome.transportError msg => msg

/-- The message of the error caught by `fetchQuestions`'s catch block:
the locally thrown "Failed to fetch questions" on a non-ok response, or the
rejection's own message (transport or JSON parse failure). -/
def loadErrorMessage : LoadOutcome → String
  | LoadOutcome.success _ => ""
  | LoadOutcome.httpFailure => "Failed to fetch questions"
  | LoadOutcome.transportError msg => msg

/-- Loader `fetchQuestions` from the mount effect: set loading, issue the GET, store
the questions on success, on any failure store `err.message` and emit one
destructive toast, and finally clear the loading flag. -/
def fetchQuestions (backend : String) (outcome : LoadOutcome) (st : FeedState) : RunResult :=
  let loading := { st with isLoading := true }
  let req : Request := ⟨"GET", backend ++ "/api/questions", none⟩
  match outcome with
  | LoadOutcome.success qs =>
      ⟨{ loading with questions := qs, isLoading := false }, [req], []⟩
  | LoadOutcome.httpFailure =>
      ⟨{ loading with error := "Failed to fetch questions", isLoading := false }, [req],
        [⟨"Error", "Failed to load questions. Please try again later.",
          ToastVariant.destructive⟩]⟩
  | LoadOutcome.transportError msg =>
      ⟨{ loading with error := msg, isLoading := false }, [req],
        [⟨"Error", "Failed to load questions. Please try again later.",
          ToastVariant.destructive⟩]⟩

/-- Three questions with vote counts 5, 12, 3 (Scenario A). -/
def scenarioA1 : Question :=
  ⟨"q1", "A", "d", ⟨"u1", "alice"⟩, [], [], [], none, 5, 100⟩

def scenarioA2 : Question :=
  ⟨"q2", "B", "d", ⟨"u2", "bob"⟩, [], [], [], none, 12, 200⟩

def scenarioA3 : Question :=
  ⟨"q3", "C", "d", ⟨"u3", "carol"⟩, [], [], [], none, 3, 300⟩

/-- Two distinct questions that tie on vote count. -/
def tieQ1 : Question :=
  ⟨"t1", "T1", "d", ⟨"u1", "alice"⟩, [], [], [], none, 7, 100⟩

def tieQ2 : Question :=
  ⟨"t2", "T2", "d", ⟨"u1", "alice"⟩, [], [], [], none, 7, 200⟩

theorem questionCompare_le_trans (k : SortKey) (a b c : Question)
    (h1 : questionCompare k a b ≤ 0) (h2 : questionCompare k b c ≤ 0) :
    questionCompare k a c ≤ 0 := by
  cases k <;> simp only [questionCompare] at h1 h2 ⊢ <;> omega

theorem questionCompare_total (k : SortKey) (a b : Question) :
    questionCompare k a b ≤ 0 ∨ questionCompare k b a ≤ 0 := by
  cases k <;> simp only [questionCompare] <;> omega

theorem sortLe_trans (k : SortKey) : ∀ a b c : Question,
    decide (questionCompare k a b ≤ 0) = true → decide (questionCompare k b c ≤ 0) = true →
    decide (questionCompare k a c ≤ 0) = true := by
  intro a b c h1 h2
  simp only [decide_eq_true_eq] at h1 h2 ⊢
  exact questionCompare_le_trans k a b c h1 h2

theorem sortLe_total (k : SortKey) : ∀ a b : Question,
    (decide (questionCompare k a b ≤ 0) || decide (questionCompare k b a ≤ 0)) = true := by
  intro a b
  simp only [Bool.or_eq_true, decide_eq_true_eq]
  exact questionCompare_total k a b

/-- Claim C5: for every question collection and every sort key, the ordering
function returns a permutation of its input (no element lost or duplicated)
and is stable: a pair appearing in order in the input whose comparator value
is 0 (equal sort values) still appears in that order in the output. The input
collection itself is never mutated — `sortedQuestions` is a pure function of
a copied array. -/
theorem order_is_stable_permutation (questions : List Question) (sortBy : SortKey) :
    (sortedQuestions questions sortBy).Perm questions ∧
    (∀ a b : Question, List.Sublist [a, b] questions → questionCompare sortBy a b = 0 →
      List.Sublist [a, b] (sortedQuestions questions sortBy)) := by
  constructor
  · exact List.mergeSort_perm questions _
  · intro a b hsub heq
    exact List.pair_sublist_mergeSort (sortLe_trans sortBy) (sortLe_total sortBy)
      (by rw [heq]; decide) hsub

/-- Witness for C5 at a concrete tied pair under MostVotes. -/
theorem order_is_stable_permutation_witness :
    List.Sublist [tieQ1, tieQ2] [tieQ1, tieQ2] ∧
    questionCompare SortKey.votes tieQ1 tieQ2 = 0 ∧
    List.Sublist [tieQ1, tieQ2] (sortedQuestions [tieQ1, tieQ2] SortKey.votes) :=
  ⟨List.Sublist.refl _, by decide,
    (order_is_stable_permutation [tieQ1, tieQ2] SortKey.votes).2 tieQ1 tieQ2
      (List.Sublist.refl _) (by decide)⟩

/-- Claim C6: under the MostVotes key every adjacent pair of the output has
descending vote counts, and the concrete collection with votes [5, 12, 3] is
displayed in order [12, 5, 3]. -/
theorem mostVotes_descending :
    (∀ questions : List Question,
      List.Chain' (fun a b => b.voteCount ≤ a.voteCount)
        (sortedQuestions questions SortKey.votes)) ∧
    (sortedQuestions [scenarioA1, scenarioA2, scenarioA3] SortKey.votes).map
        (fun q => q.voteCount) = [12, 5, 3] := by
  constructor
  · intro questions
    have hp := List.sorted_mergeSort (sortLe_trans SortKey.votes)
      (sortLe_total SortKey.votes) questions
    have hp2 : List.Pairwise (fun a b => b.voteCount ≤ a.voteCount)
        (sortedQuestions questions SortKey.votes) := by
      refine hp.imp ?_
      intro a b h
      simp only [decide_eq_true_eq, questionCompare] at h
      omega
    exact hp2.chain'
  · simp [sortedQuestions, List.mergeSort, questionCompare,
      scenarioA1, scenarioA2, scenarioA3]

/-- Claim C7: ordering under Newest and ordering under RecentActivity produce
identical output sequences for every collection (the switch's "activity" case
and its default branch compute the same comparator). -/
theorem newest_eq_recentActivity (questions : List Question) :
    sortedQuestions questions SortKey.newest = sortedQuestions questions SortKey.activity :=
  rfl

/-- Claim C8: removal is idempotent, and removing an absent id is a no-op
rather than an error. -/
theorem removeQuestion_idempotent (questions : List Question) (questionId : String) :
    removeQuestion (removeQuestion questions questionId) questionId
      = removeQuestion questions questionId ∧
    ((∀ q ∈ questions, q._id ≠ questionId) → removeQuestion questions questionId = questions) := by
  constructor
  · apply List.filter_eq_self.mpr
    intro q hq
    exact (List.mem_filter.mp hq).2
  · intro h
    apply List.filter_eq_self.mpr
    intro q hq
    simpa using h q hq

/-- Witness for C8 at a concrete collection not containing the removed id. -/
theorem removeQuestion_idempotent_witness :
    (∀ q ∈ [tieQ1], q._id ≠ "zz") ∧ removeQuestion [tieQ1] "zz" = [tieQ1] :=
  ⟨by decide, (removeQuestion_idempotent [tieQ1] "zz").2 (by decide)⟩

/-- Claim C10: whatever the outcome of the initial load — success, non-ok
response, or transport/parse failure — the loading flag is false once
`fetchQuestions` completes (the `finally` block always runs). -/
theorem load_completion_clears_loading (backend : String) (outcome : LoadOutcome)
    (st : FeedState) :
    (fetchQuestions backend outcome st).state.isLoading = false := by
  cases outcome <;> rfl

/-- Claim C1: when the viewer is absent, or present with a non-admin role, or
the synchronous confirmation gate declines, both moderation handlers return
with no network request issued, no toast emitted, and the state unchanged. -/
theorem moderation_guard_no_side_effects (backend : String) (user : Option Viewer)
    (confirmed : Bool) (token : Option String) (outcome : FetchOutcome) (st : FeedState)
    (questionId userId username : String)
    (h : (∀ u : Viewer, user = some u → u.role ≠ "admin") ∨ confirmed = false) :
    handleDeleteQuestion backend user confirmed token outcome st questionId = ⟨st, [], []⟩ ∧
    handleBanUser backend user confirmed token outcome st userId username = ⟨st, [], []⟩ := by
  cases user with
  | none => exact ⟨rfl, rfl⟩
  | some u =>
    rcases h with h | h
    · have hr : u.role ≠ "admin" := h u rfl
      constructor <;> simp [handleDeleteQuestion, handleBanUser, hr]
    · subst h
      by_cases hr : u.role = "admin" <;>
        constructor <;> simp [handleDeleteQuestion, handleBanUser, hr]

/-- Witness for C1: an absent viewer with confirmation granted. -/
theorem moderation_guard_no_side_effects_witness :
    handleDeleteQuestion "b" none true (some "tok") FetchOutcome.success initialState "q1"
      = ⟨initialState, [], []⟩ ∧
    handleBanUser "b" none true (some "tok") FetchOutcome.success initialState "u1" "alice"
      = ⟨initialState, [], []⟩ :=
  moderation_guard_no_side_effects "b" none true (some "tok") FetchOutcome.success initialState
    "q1" "u1" "alice" (Or.inl fun _ hu => Option.noConfusion hu)

/-- Claim C2: from a Ready state containing a question with id `questionId`,
an admin-confirmed delete whose gateway call succeeds yields a state whose
collection is exactly the old one with that id filtered out — the id is
absent, every question with a different id is still present (unchanged, in
order) — and exactly one success toast is emitted. -/
theorem admin_delete_success_removes_target (backend : String) (u : Viewer)
    (token : Option String) (st : FeedState) (questionId : String)
    (hadmin : u.role = "admin") (hload : st.isLoading = false) (herr : st.error = "")
    (hmem : ∃ q ∈ st.questions, q._id = questionId) :
    (handleDeleteQuestion backend (some u) true token FetchOutcome.success st questionId).state
      = { st with questions := removeQuestion st.questions questionId } ∧
    (∀ q ∈ (handleDeleteQuestion backend (some u) true token FetchOutcome.success st
        questionId).state.questions, q._id ≠ questionId) ∧
    (∀ q ∈ st.questions, q._id ≠ questionId →
      q ∈ (handleDeleteQuestion backend (some u) true token FetchOutcome.success st
        questionId).state.questions) ∧
    (handleDeleteQuestion backend (some u) true token FetchOutcome.success st
        questionId).toasts =
      [⟨"Question deleted", "The question and all its answers have been deleted.",
        ToastVariant.default⟩] := by
  have hres : handleDeleteQuestion backend (some u) true token FetchOutcome.success st questionId
      = ⟨{ st with questions := removeQuestion st.questions questionId },
          [⟨"DELETE", backend ++ "/api/questions/" ++ questionId ++ "/admin-delete",
            some ("Bearer " ++ jsTemplateToken token)⟩],
          [⟨"Question deleted", "The question and all its answers have been deleted.",
            ToastVariant.default⟩]⟩ := by
    simp [handleDeleteQuestion, hadmin]
  refine ⟨by rw [hres], ?_, ?_, by rw [hres]⟩
  · rw [hres]
    intro q hq
    have := (List.mem_filter.mp hq).2
    simpa using this
  · rw [hres]
    intro q hq hne
    simp only [removeQuestion, List.mem_filter]
    exact ⟨hq, by simpa using hne⟩

/-- Witness for C2: deleting id "t1" from a Ready one-question collection. -/
theorem admin_delete_success_removes_target_witness :
    (handleDeleteQuestion "b" (some ⟨"a1", "admin"⟩) true (some "tok") FetchOutcome.success
        ⟨[tieQ1], false, "", SortKey.newest⟩ "t1").toasts =
      [⟨"Question deleted", "The question and all its answers have been deleted.",
        ToastVariant.default⟩] :=
  (admin_delete_success_removes_target "b" ⟨"a1", "admin"⟩ (some "tok")
    ⟨[tieQ1], false, "", SortKey.newest⟩ "t1" rfl rfl rfl
    ⟨tieQ1, by simp, rfl⟩).2.2.2

/-- Claim C3: on a failing moderation call (non-ok response, or a rejection
with a nonempty message), the state is unchanged, exactly one destructive
toast is emitted whose description is the caught error's message, and exactly
one request was issued (no retry). -/
theorem moderation_failure_leaves_state (backend : String) (u : Viewer)
    (token : Option String) (st : FeedState) (questionId userId username : String)
    (outcome : FetchOutcome) (hadmin : u.role = "admin")
    (hfail : outcome = FetchOutcome.httpFailure ∨
      ∃ m, outcome = FetchOutcome.transportError m ∧ m ≠ "") :
    (handleDeleteQuestion backend (some u) true token outcome st questionId).state = st ∧
    (handleDeleteQuestion backend (some u) true token outcome st questionId).toasts =
      [⟨"Error", deleteErrorMessage outcome, ToastVariant.destructive⟩] ∧
    (handleDeleteQuestion backend (some u) true token outcome st questionId).requests.length
      = 1 ∧
    (handleBanUser backend (some u) true token outcome st userId username).state = st ∧
    (handleBanUser backend (some u) true token outcome st userId username).toasts =
      [⟨"Error", banErrorMessage outcome, ToastVariant.destructive⟩] ∧
    (handleBanUser backend (some u) true token outcome st userId username).requests.length
      = 1 := by
  rcases hfail with h | ⟨m, h, hm⟩
  · subst h
    refine ⟨?_, ?_, ?_, ?_, ?_, ?_⟩ <;>
      simp [handleDeleteQuestion, handleBanUser, hadmin, jsOrElse,
        deleteErrorMessage, banErrorMessage]
  · subst h
    refine ⟨?_, ?_, ?_, ?_, ?_, ?_⟩ <;>
      simp [handleDeleteQuestion, handleBanUser, hadmin, jsOrElse,
        deleteErrorMessage, banErrorMessage, hm]

/-- Witness for C3: a non-ok response to an admin-confirmed delete and ban. -/
theorem moderation_failure_leaves_state_witness :
    (handleDeleteQuestion "b" (some ⟨"a1", "admin"⟩) true (some "tok")
        FetchOutcome.httpFailure initialState "q1").state = initialState ∧
    (handleBanUser "b" (some ⟨"a1", "admin"⟩) true (some "tok")
        FetchOutcome.httpFailure initialState "u1" "alice").toasts =
      [⟨"Error", banErrorMessage FetchOutcome.httpFailure, ToastVariant.destructive⟩] := by
  have h := moderation_failure_leaves_state "b" ⟨"a1", "admin"⟩ (some "tok") initialState
    "q1" "u1" "alice" FetchOutcome.httpFailure rfl (Or.inl rfl)
  exact ⟨h.1, h.2.2.2.2.1⟩

/-- Claim C4: a failing initial load (non-ok response, or a rejection with a
nonempty message) leaves the error field holding the caught error's message
(so the feed is Errored with a displayable message), the question collection
empty, the loading flag cleared, exactly one error toast emitted, and exactly
one request issued (no automatic retry). -/
theorem failed_load_errors_feed (backend : String) (outcome : LoadOutcome)
    (hfail : outcome = LoadOutcome.httpFailure ∨
      ∃ m, outcome = LoadOutcome.transportError m ∧ m ≠ "") :
    (fetchQuestions backend outcome initialState).state.error = loadErrorMessage outcome ∧
    (fetchQuestions backend outcome initialState).state.error ≠ "" ∧
    (fetchQuestions backend outcome initialState).state.questions = [] ∧
    (fetchQuestions backend outcome initialState).state.isLoading = false ∧
    (fetchQuestions backend outcome initialState).toasts =
      [⟨"Error", "Failed to load questions. Please try again later.",
        ToastVariant.destructive⟩] ∧
    (fetchQuestions backend outcome initialState).requests.length = 1 := by
  rcases hfail with h | ⟨m, h, hm⟩
  · subst h
    refine ⟨rfl, ?_, rfl, rfl, rfl, rfl⟩
    simp [fetchQuestions, initialState, loadErrorMessage]
  · subst h
    refine ⟨rfl, ?_, rfl, rfl, rfl, rfl⟩
    simpa [fetchQuestions, initialState, loadErrorMessage] using hm

/-- Witness for C4: a non-ok response to the initial load. -/
theorem failed_load_errors_feed_witness :
    (fetchQuestions "b" LoadOutcome.httpFailure initialState).state.error
        = loadErrorMessage LoadOutcome.httpFailure ∧
    (fetchQuestions "b" LoadOutcome.httpFailure initialState).state.questions = [] := by
  have h := failed_load_errors_feed "b" LoadOutcome.httpFailure (Or.inl rfl)
  exact ⟨h.1, h.2.2.1⟩

/-- Counterexample to C9: with no token in the session store, an
admin-confirmed delete still issues the privileged request (the code never
checks the token before calling fetch). -/
theorem missing_token_still_issues_request :
    (handleDeleteQuestion "b" (some ⟨"a1", "admin"⟩) true none FetchOutcome.success
        initialState "q1").requests ≠ [] := by
  simp [handleDeleteQuestion]

/-- Claim C9 (amended): when no auth token is available, the moderation
handlers do not crash, but they do not treat moderation as unavailable
either: the privileged request is still issued, with the literal
authorization header "Bearer null" produced by interpolating the missing
token. -/
theorem missing_token_requests_bearer_null (backend : String) (u : Viewer) (st : FeedState)
    (questionId userId username : String) (outcome : FetchOutcome)
    (hadmin : u.role = "admin") :
    (handleDeleteQuestion backend (some u) true none outcome st questionId).requests =
      [⟨"DELETE", backend ++ "/api/questions/" ++ questionId ++ "/admin-delete",
        some "Bearer null"⟩] ∧
    (handleBanUser backend (some u) true none outcome st userId username).requests =
      [⟨"PUT", backend ++ "/api/admin/ban-user/" ++ userId ++ "?banned=true",
        some "Bearer null"⟩] := by
  have hb : ("Bearer " ++ jsTemplateToken none) = "Bearer null" := rfl
  cases outcome <;>
    exact ⟨by simp [handleDeleteQuestion, hadmin, hb], by simp [handleBanUser, hadmin, hb]⟩

/-- Witness for C9 (amended): concrete admin delete and ban with no token. -/
theorem missing_token_requests_bearer_null_witness :
    (handleDeleteQuestion "b" (some ⟨"a1", "admin"⟩) true none FetchOutcome.httpFailure
        initialState "q1").requests =
      [⟨"DELETE", "b" ++ "/api/questions/" ++ "q1" ++ "/admin-delete", some "Bearer null"⟩] :=
  (missing_token_requests_bearer_null "b" ⟨"a1", "admin"⟩ initialState "q1" "u1" "alice"
    FetchOutcome.httpFailure rfl).1

end StackIt
